import Mathlib

/-!
Verification of the modbus-relay gateway: a shallow embedding of the
CRC-16/Modbus computation, the RTU response sizing, the protocol bridge
(ModbusProcessor::process_request), MBAP frame validation (read_frame),
the RTU transaction side-effect sequence and read loop, the stats actor,
and the connection-admission paths, together with theorems about them.
Bytes are modelled as Nat values below 256; u16/u64 overflow is made
explicit with % where the source can overflow.
-/

/-- The 256-entry CRC16 lookup table for polynomial 0xA001, transcribed from
calc_crc16 in src/modbus.rs. -/
def CRC16_TABLE : List Nat :=
[
  0x0000, 0xC0C1, 0xC181, 0x0140, 0xC301, 0x03C0, 0x0280, 0xC241,
  0xC601, 0x06C0, 0x0780, 0xC741, 0x0500, 0xC5C1, 0xC481, 0x0440,
  0xCC01, 0x0CC0, 0x0D80, 0xCD41, 0x0F00, 0xCFC1, 0xCE81, 0x0E40,
  0x0A00, 0xCAC1, 0xCB81, 0x0B40, 0xC901, 0x09C0, 0x0880, 0xC841,
  0xD801, 0x18C0, 0x1980, 0xD941, 0x1B00, 0xDBC1, 0xDA81, 0x1A40,
  0x1E00, 0xDEC1, 0xDF81, 0x1F40, 0xDD01, 0x1DC0, 0x1C80, 0xDC41,
  0x1400, 0xD4C1, 0xD581, 0x1540, 0xD701, 0x17C0, 0x1680, 0xD641,
  0xD201, 0x12C0, 0x1380, 0xD341, 0x1100, 0xD1C1, 0xD081, 0x1040,
  0xF001, 0x30C0, 0x3180, 0xF141, 0x3300, 0xF3C1, 0xF281, 0x3240,
  0x3600, 0xF6C1, 0xF781, 0x3740, 0xF501, 0x35C0, 0x3480, 0xF441,
  0x3C00, 0xFCC1, 0xFD81, 0x3D40, 0xFF01, 0x3FC0, 0x3E80, 0xFE41,
  0xFA01, 0x3AC0, 0x3B80, 0xFB41, 0x3900, 0xF9C1, 0xF881, 0x3840,
  0x2800, 0xE8C1, 0xE981, 0x2940, 0xEB01, 0x2BC0, 0x2A80, 0xEA41,
  0xEE01, 0x2EC0, 0x2F80, 0xEF41, 0x2D00, 0xEDC1, 0xEC81, 0x2C40,
  0xE401, 0x24C0, 0x2580, 0xE541, 0x2700, 0xE7C1, 0xE681, 0x2640,
  0x2200, 0xE2C1, 0xE381, 0x2340, 0xE101, 0x21C0, 0x2080, 0xE041,
  0xA001, 0x60C0, 0x6180, 0xA141, 0x6300, 0xA3C1, 0xA281, 0x6240,
  0x6600, 0xA6C1, 0xA781, 0x6740, 0xA501, 0x65C0, 0x6480, 0xA441,
  0x6C00, 0xACC1, 0xAD81, 0x6D40, 0xAF01, 0x6FC0, 0x6E80, 0xAE41,
  0xAA01, 0x6AC0, 0x6B80, 0xAB41, 0x6900, 0xA9C1, 0xA881, 0x6840,
  0x7800, 0xB8C1, 0xB981, 0x7940, 0xBB01, 0x7BC0, 0x7A80, 0xBA41,
  0xBE01, 0x7EC0, 0x7F80, 0xBF41, 0x7D00, 0xBDC1, 0xBC81, 0x7C40,
  0xB401, 0x74C0, 0x7580, 0xB541, 0x7700, 0xB7C1, 0xB681, 0x7640,
  0x7200, 0xB2C1, 0xB381, 0x7340, 0xB101, 0x71C0, 0x7080, 0xB041,
  0x5000, 0x90C1, 0x9181, 0x5140, 0x9301, 0x53C0, 0x5280, 0x9241,
  0x9601, 0x56C0, 0x5780, 0x9741, 0x5500, 0x95C1, 0x9481, 0x5440,
  0x9C01, 0x5CC0, 0x5D80, 0x9D41, 0x5F00, 0x9FC1, 0x9E81, 0x5E40,
  0x5A00, 0x9AC1, 0x9B81, 0x5B40, 0x9901, 0x59C0, 0x5880, 0x9841,
  0x8801, 0x48C0, 0x4980, 0x8941, 0x4B00, 0x8BC1, 0x8A81, 0x4A40,
  0x4E00, 0x8EC1, 0x8F81, 0x4F40, 0x8D01, 0x4DC0, 0x4C80, 0x8C41,
  0x4400, 0x84C1, 0x8581, 0x4540, 0x8701, 0x47C0, 0x4680, 0x8641,
  0x8201, 0x42C0, 0x4380, 0x8341, 0x4100, 0x81C1, 0x8081, 0x4040]

/-- Table-driven CRC16 from calc_crc16 in src/modbus.rs: crc starts at 0xFFFF
and each byte updates it as crc = (crc >>> 8) ^^^ TABLE[(crc ^^^ byte) &&& 0xFF]. -/
def calc_crc16 (data : List Nat) : Nat :=
  data.foldl (fun crc byte => (crc >>> 8) ^^^ CRC16_TABLE.getD ((crc ^^^ byte) &&& 0x00FF) 0) 0xFFFF

/-- Modelled from the spec: one bit step of the reference CRC-16/Modbus
(reflected polynomial 0xA001): shift right one bit and XOR the polynomial
in when the bit shifted out was set. -/
def crcBitStep (c : Nat) : Nat :=
  if c % 2 = 1 then (c / 2) ^^^ 0xA001 else c / 2

/-- Iterate crcBitStep a given number of times. -/
def crcBits : Nat → Nat → Nat
  | c, 0 => c
  | c, n + 1 => crcBits (crcBitStep c) n

/-- Modelled from the spec: the reference bit-by-bit CRC-16/Modbus
(init 0xFFFF, reflected polynomial 0xA001, eight bit steps per byte,
no final XOR). The repository only ships the table-driven calc_crc16. -/
def calc_crc16_ref (data : List Nat) : Nat :=
  data.foldl (fun crc byte => crcBits (crc ^^^ byte) 8) 0xFFFF

/-- Big-endian byte pair of a value cast to u16, as produced by
u16::to_be_bytes after an `as u16` cast. -/
def u16_be_bytes (v : Nat) : List Nat :=
  [v / 256 % 256, v % 256]

/-- Little-endian byte pair of a value cast to u16, as produced by
u16::to_le_bytes (used to append the CRC to an RTU request). -/
def u16_le_bytes (v : Nat) : List Nat :=
  [v % 256, v / 256 % 256]

/-- The error values the modelled fragments of modbus-relay can surface,
mirroring the variants of RelayError used in src/modbus.rs,
src/modbus_relay.rs and src/rtu_transport.rs that the claims touch. -/
inductive RelayErr where
  /-- FrameErrorKind TooShort with the offending frame. -/
  | frameTooShort (frame : List Nat)
  /-- FrameErrorKind TooLong. -/
  | frameTooLong
  /-- FrameErrorKind InvalidFormat with the offending frame. -/
  | frameInvalidFormat (frame : List Nat)
  /-- FrameError Crc carrying the calculated and received values and the frame. -/
  | frameCrc (calculated received : Nat) (frame : List Nat)
  /-- FrameErrorKind InvalidUnitId with the offending frame. -/
  | frameInvalidUnitId (frame : List Nat)
  /-- ProtocolErrorKind InvalidProtocolId. -/
  | protocolInvalidProtocolId
  /-- ConnectionError Disconnected (zero-byte TCP read). -/
  | connDisconnected
deriving DecidableEq

/-- Response size estimator guess_response_size from src/modbus.rs. -/
def guess_response_size (function : Nat) (quantity : Nat) : Nat :=
  if function = 0x01 ∨ function = 0x02 then
    1 + 1 + 1 + (quantity + 7) / 8 + 2
  else if function = 0x03 ∨ function = 0x04 then
    1 + 1 + 1 + quantity * 2 + 2
  else if function = 0x05 ∨ function = 0x06 then
    1 + 1 + 2 + 2 + 2
  else if function = 0x0F ∨ function = 0x10 then
    1 + 1 + 2 + 2 + 2
  else
    256

/-- get_u16_from_request from src/modbus.rs: the big-endian u16 at
request[start..start+2], or an InvalidFormat error when the request is
too short. -/
def get_u16_from_request (request : List Nat) (start : Nat) : Except RelayErr Nat :=
  match request.get? start, request.get? (start + 1) with
  | some b0, some b1 => Except.ok (b0 * 256 + b1)
  | _, _ => Except.error (RelayErr.frameInvalidFormat request)

/-- get_quantity from src/modbus.rs: bytes [4..6] big-endian for function
codes 0x01..=0x04, 0x0F and 0x10; the constant 1 for 0x05 and 0x06; and
the constant 1 for every other function code. -/
def get_quantity (function_code : Nat) (request : List Nat) : Except RelayErr Nat :=
  if (0x01 ≤ function_code ∧ function_code ≤ 0x04) ∨ function_code = 0x0F ∨ function_code = 0x10 then
    get_u16_from_request request 4
  else if function_code = 0x05 ∨ function_code = 0x06 then
    Except.ok 1
  else
    Except.ok 1

/-- The quantity recomputed inside RtuTransport::transaction in
src/rtu_transport.rs: the function code is request[1] (InvalidFormat if
absent); for 0x03 and 0x04 the big-endian u16 at request[4..6]
(InvalidFormat if absent); 1 for every other function code. -/
def transport_quantity (request : List Nat) : Except RelayErr Nat :=
  match request.get? 1 with
  | none => Except.error (RelayErr.frameInvalidFormat request)
  | some function =>
    if function = 0x03 ∨ function = 0x04 then
      match request.get? 4 with
      | none => Except.error (RelayErr.frameInvalidFormat request)
      | some b0 =>
        match request.get? 5 with
        | none => Except.error (RelayErr.frameInvalidFormat request)
        | some b1 => Except.ok (b0 * 256 + b1)
    else
      Except.ok 1

/-- The RTU request frame built by ModbusProcessor::process_request:
unit_id, then the PDU, then the CRC16 of both in little-endian order. -/
def build_rtu_request (unit_id : Nat) (pdu : List Nat) : List Nat :=
  (unit_id :: pdu) ++ u16_le_bytes (calc_crc16 (unit_id :: pdu))

/-- ModbusProcessor::process_request from src/modbus.rs, with the RTU
transport abstracted as a function from the request bytes and the
expected response size to either a transport-level failure or the bytes
actually received (the buffer truncated to bytes_read). -/
def process_request (transport : List Nat → Nat → Except Unit (List Nat))
    (t0 t1 unit_id : Nat) (pdu : List Nat) : Except RelayErr (List Nat) :=
  let rtu_request := build_rtu_request unit_id pdu
  let function_code := pdu.headD 0
  match get_quantity function_code rtu_request with
  | Except.error e => Except.error e
  | Except.ok quantity =>
    let expected_response_size := guess_response_size function_code quantity
    match transport rtu_request expected_response_size with
    | Except.error _ =>
      Except.ok [t0, t1, 0x00, 0x00, 0x00, 0x03, unit_id, function_code ||| 0x80, 0x0B]
    | Except.ok rtu_response =>
      let rtu_len := rtu_response.length
      if rtu_len < 5 then
        Except.error (RelayErr.frameTooShort rtu_response)
      else
        let expected_crc := calc_crc16 (rtu_response.take (rtu_len - 2))
        let received_crc := rtu_response.getD (rtu_len - 2) 0 + 256 * rtu_response.getD (rtu_len - 1) 0
        if expected_crc ≠ received_crc then
          Except.error (RelayErr.frameCrc expected_crc received_crc (rtu_response.take (rtu_len - 2)))
        else
          let body := rtu_response.take (rtu_len - 2)
          if body.headD 0 ≠ unit_id then
            Except.error (RelayErr.frameInvalidUnitId body)
          else
            Except.ok ((t0 :: t1 :: 0x00 :: 0x00 :: u16_be_bytes body.length) ++ body)

/-- The MBAP validation performed by read_frame in src/modbus_relay.rs on
the bytes of one successful TCP read: a zero-byte read is Disconnected;
fewer than 7 bytes is TooShort; a nonzero protocol id is
InvalidProtocolId; a length field above 249 is TooLong; a length field
not equal to the byte count minus 6 is InvalidFormat; otherwise the
frame and its transaction id are returned. -/
def read_frame (buf : List Nat) : Except RelayErr (List Nat × (Nat × Nat)) :=
  let n := buf.length
  if n = 0 then Except.error RelayErr.connDisconnected
  else if n < 7 then Except.error (RelayErr.frameTooShort buf)
  else
    let protocol_id := buf.getD 2 0 * 256 + buf.getD 3 0
    if protocol_id ≠ 0 then Except.error RelayErr.protocolInvalidProtocolId
    else
      let length := buf.getD 4 0 * 256 + buf.getD 5 0
      if 249 < length then Except.error RelayErr.frameTooLong
      else if length + 6 ≠ n then Except.error (RelayErr.frameInvalidFormat buf)
      else Except.ok (buf, (buf.getD 0 0, buf.getD 1 0))

/-- RtsType from src/config/types/rts_type.rs. -/
inductive RtsType where
  | none
  | up
  | down
deriving DecidableEq

/-- RtsType::to_signal_level from src/config/types/rts_type.rs. -/
def RtsType.to_signal_level : RtsType → Bool → Bool
  | RtsType.none, _ => false
  | RtsType.up, is_transmitting => is_transmitting
  | RtsType.down, is_transmitting => !is_transmitting

/-- One observable side effect of RtuTransport::transaction. -/
inductive RtuAction where
  /-- set_rts: the TIOCMGET/TIOCMSET ioctl pair driving the RTS line. -/
  | setRts (level : Bool)
  /-- tokio sleep of rts_delay_us microseconds. -/
  | sleepUs (us : Nat)
  /-- write_all of the request. -/
  | writeRequest
  /-- flush of the serial write buffer. -/
  | flushWrite
  /-- tc_flush: drain of the OS tx/rx buffers (flush_after_write). -/
  | drainBuffers
  /-- the response read loop. -/
  | readPhase
deriving DecidableEq

/-- The side-effect sequence of the write-then-read body of
RtuTransport::transaction in src/rtu_transport.rs. The blocks guarded by
cfg(feature = "rts") are modelled by the featureRts flag; note that when
that feature is compiled in, set_rts is invoked unconditionally with
rts_type.to_signal_level, with no check of rts_type itself. -/
def transaction_actions (featureRts : Bool) (rts_type : RtsType)
    (rts_delay_us : Nat) (flush_after_write : Bool) : List RtuAction :=
  (if featureRts then
    RtuAction.setRts (rts_type.to_signal_level true) ::
      (if 0 < rts_delay_us then [RtuAction.sleepUs rts_delay_us] else [])
  else []) ++
  [RtuAction.writeRequest, RtuAction.flushWrite] ++
  (if featureRts then [RtuAction.setRts (rts_type.to_signal_level false)] else []) ++
  (if flush_after_write then [RtuAction.drainBuffers] else []) ++
  (if featureRts ∧ 0 < rts_delay_us then [RtuAction.sleepUs rts_delay_us] else []) ++
  [RtuAction.readPhase]

/-- One observation made by the read loop of RtuTransport::transaction:
the outcome of one port.read call, together with the elapsed
milliseconds since the last byte arrived (last_read_time.elapsed()) as
observed at that moment. -/
inductive ReadEv where
  /-- port.read returned Ok(n). -/
  | readOk (n : Nat) (gapMs : Nat)
  /-- port.read failed with ErrorKind TimedOut. -/
  | readTimedOut (gapMs : Nat)
  /-- port.read failed with any other error kind. -/
  | readErr
deriving DecidableEq

/-- The result of the read phase of RtuTransport::transaction. -/
inductive ReadOutcome where
  /-- TransportError NoResponse with its attempts counter. -/
  | noResponse (attempts : Nat)
  /-- TransportError Io (read failure, or response shorter than 3 bytes). -/
  | ioError
  /-- Ok(total_bytes). -/
  | success (bytes : Nat)
  /-- The observation list was exhausted while the loop would continue. -/
  | pending (total timeouts : Nat)
deriving DecidableEq

/-- The checks after the read loop of RtuTransport::transaction: zero
bytes is NoResponse with the current timeout counter, fewer than 3 bytes
is an Io error (response too short), otherwise the byte count is
returned. -/
def read_finish (total timeouts : Nat) : ReadOutcome :=
  if total = 0 then ReadOutcome.noResponse timeouts
  else if total < 3 then ReadOutcome.ioError
  else ReadOutcome.success total

/-- The read loop of RtuTransport::transaction in src/rtu_transport.rs,
driven by a list of read observations. State: total bytes received and
consecutive timeouts. The loop runs while total < expected_size; a
zero-byte read or a timeout with bytes already buffered and an
inter-byte gap of at least 100 ms breaks out; a timeout bumps the
counter and the third consecutive timeout returns NoResponse when
nothing was received (and breaks otherwise); any other read error is an
Io error. -/
def rtu_read_loop (expected : Nat) : List ReadEv → Nat → Nat → ReadOutcome
  | [], total, timeouts =>
    if expected ≤ total then read_finish total timeouts else ReadOutcome.pending total timeouts
  | ev :: rest, total, timeouts =>
    if expected ≤ total then read_finish total timeouts
    else
      match ev with
      | ReadEv.readOk 0 gapMs =>
        if 0 < total ∧ 100 ≤ gapMs then read_finish total timeouts
        else rtu_read_loop expected rest total timeouts
      | ReadEv.readOk (n + 1) _ =>
        rtu_read_loop expected rest (total + (n + 1)) 0
      | ReadEv.readTimedOut gapMs =>
        if 0 < total ∧ 100 ≤ gapMs then read_finish total timeouts
        else if 3 ≤ timeouts + 1 then
          if total = 0 then ReadOutcome.noResponse (timeouts + 1)
          else read_finish total (timeouts + 1)
        else rtu_read_loop expected rest total (timeouts + 1)
      | ReadEv.readErr => ReadOutcome.ioError

/-- Peer socket addresses, abstracted as naturals. -/
abbrev Addr := Nat

/-- u64::MAX, the saturation bound of the stats counters. -/
def U64_MAX : Nat := 2 ^ 64 - 1

/-- u64 saturating_add. -/
def satAdd64 (a b : Nat) : Nat := min (a + b) U64_MAX

/-- u64 wrapping addition: the semantics of a plain u64 `+=` in release
builds, which wraps past u64::MAX. -/
def wrapAdd64 (a b : Nat) : Nat := (a + b) % 2 ^ 64

/-- Per-client stats owned by the stats actor, from
src/connection/stats/client.rs (timestamps abstracted as naturals). -/
structure ClientStats where
  active_connections : Nat
  total_requests : Nat
  total_errors : Nat
  last_active : Nat
  last_error : Option Nat
  avg_response_time_ms : Nat
deriving DecidableEq

/-- Stats::default from src/connection/stats/client.rs: all counters
zero, last_active the current time, no last error. -/
def ClientStats.default (now : Nat) : ClientStats :=
  { active_connections := 0
    total_requests := 0
    total_errors := 0
    last_active := now
    last_error := Option.none
    avg_response_time_ms := 0 }

/-- The events of the stats actor, from src/connection/events.rs as
consumed by StatsManager::handle_event. -/
inductive StatEvent where
  | clientConnected (addr : Addr)
  | clientDisconnected (addr : Addr)
  | requestProcessed (addr : Addr) (success : Bool) (duration_ms : Nat)
  | queryStats (addr : Addr)
  | queryConnectionStats

/-- The state owned by StatsManager: the per-client map and the global
total_connections counter. -/
structure StatsState where
  stats : Addr → Option ClientStats
  total_connections : Nat

/-- StatsManager::handle_event from src/stats_manager.rs. The
avg_response_time_ms update of the RequestProcessed arm is computed by
the source in IEEE-754 f64 and cast back with `as u64`; that computation
is abstracted here as the parameter ema taking the old average and the
new sample. Query events only read the map. -/
def handle_event (ema : Nat → Nat → Nat) (now : Nat) (s : StatsState) :
    StatEvent → StatsState
  | StatEvent.clientConnected addr =>
    let entry := (s.stats addr).getD (ClientStats.default now)
    let entry := { entry with
      active_connections := satAdd64 entry.active_connections 1
      last_active := now }
    { stats := fun a => if a = addr then some entry else s.stats a
      total_connections := satAdd64 s.total_connections 1 }
  | StatEvent.clientDisconnected addr =>
    match s.stats addr with
    | Option.none => s
    | some entry =>
      let entry := { entry with
        active_connections := entry.active_connections - 1
        last_active := now }
      { s with stats := fun a => if a = addr then some entry else s.stats a }
  | StatEvent.requestProcessed addr success duration_ms =>
    let entry := (s.stats addr).getD (ClientStats.default now)
    let entry := { entry with total_requests := satAdd64 entry.total_requests 1 }
    let entry :=
      if !success then
        { entry with
          total_errors := satAdd64 entry.total_errors 1
          last_error := some now }
      else entry
    let entry :=
      if entry.avg_response_time_ms = 0 then
        { entry with avg_response_time_ms := duration_ms }
      else
        { entry with avg_response_time_ms := ema entry.avg_response_time_ms duration_ms }
    let entry := { entry with last_active := now }
    { s with stats := fun a => if a = addr then some entry else s.stats a }
  | StatEvent.queryStats _ => s
  | StatEvent.queryConnectionStats => s

/-- Per-client stats of the connection manager, from the ClientStats
struct used by src/connection/manager.rs and src/connection_manager.rs
(fields active_connections, last_active, total_requests, error_count,
last_error). -/
structure ManagerClientStats where
  active_connections : Nat
  last_active : Nat
  total_requests : Nat
  error_count : Nat
  last_error : Option Nat
deriving DecidableEq

/-- The fresh entry inserted by the connection manager
(or_insert_with): zero counters, last_active now. -/
def ManagerClientStats.fresh (now : Nat) : ManagerClientStats :=
  { active_connections := 0
    last_active := now
    total_requests := 0
    error_count := 0
    last_error := Option.none }

/-- Manager::record_client_error from src/connection/manager.rs (the
same code appears in src/connection_manager.rs): create the entry if
absent, then bump error_count with a plain u64 increment (wrapping past
u64::MAX) and stamp last_error. -/
def record_client_error (now : Nat) (stats : Addr → Option ManagerClientStats)
    (addr : Addr) : Addr → Option ManagerClientStats :=
  let entry := (stats addr).getD (ManagerClientStats.fresh now)
  let entry := { entry with
    error_count := wrapAdd64 entry.error_count 1
    last_error := some now }
  fun a => if a = addr then some entry else stats a

/-- Manager::record_request from src/connection/manager.rs: when the
entry exists, bump total_requests with a plain u64 increment (wrapping
past u64::MAX), stamp last_active, and on failure also bump error_count
the same way and stamp last_error. -/
def record_request (now : Nat) (stats : Addr → Option ManagerClientStats)
    (addr : Addr) (success : Bool) : Addr → Option ManagerClientStats :=
  match stats addr with
  | Option.none => stats
  | some entry =>
    let entry := { entry with
      total_requests := wrapAdd64 entry.total_requests 1
      last_active := now }
    let entry :=
      if !success then
        { entry with
          error_count := wrapAdd64 entry.error_count 1
          last_error := some now }
      else entry
    fun a => if a = addr then some entry else stats a

/-- A successful semaphore acquisition, in order of occurrence. -/
inductive Acq where
  | perIp
  | globalSem
deriving DecidableEq

/-- The outcome of one accept_connection call. -/
inductive AcceptRes where
  /-- LimitExceeded for the per-IP semaphore. -/
  | errPerIpLimit
  /-- LimitExceeded for the global semaphore. -/
  | errGlobalLimit
  /-- InvalidState: active-connections counter overflow. -/
  | errOverflow
  /-- A ConnectionGuard was returned. -/
  | okGuard
deriving DecidableEq

/-- What one accept_connection call did: its result, the successful
permit acquisitions in order, and the free permits of the global
semaphore after the call returns (permits acquired on a path that
returns an error are dropped, hence released, on return). -/
structure AcceptOutcome where
  result : AcceptRes
  acquired : List Acq
  finalGlobalAvail : Nat
deriving DecidableEq

/-- usize::MAX, the overflow guard bound of accept_connection. -/
def USIZE_MAX : Nat := 2 ^ 64 - 1

/-- Manager::accept_connection from src/connection/manager.rs: when
per-IP limits are configured, try_acquire the per-IP permit first (the
semaphore entry is created at the configured limit when absent), then
try_acquire the global permit, then check the active-connections
overflow guard; on success the guard keeps both permits. Semaphores are
abstracted by their free-permit counts at the call. -/
def accept_connection (per_ip_limits : Option Nat) (perIpAvail globalAvail : Nat)
    (activeConns : Nat) : AcceptOutcome :=
  match per_ip_limits with
  | some _ =>
    if perIpAvail = 0 then
      { result := AcceptRes.errPerIpLimit, acquired := [], finalGlobalAvail := globalAvail }
    else if globalAvail = 0 then
      { result := AcceptRes.errGlobalLimit, acquired := [Acq.perIp],
        finalGlobalAvail := globalAvail }
    else if activeConns = USIZE_MAX then
      { result := AcceptRes.errOverflow, acquired := [Acq.perIp, Acq.globalSem],
        finalGlobalAvail := globalAvail }
    else
      { result := AcceptRes.okGuard, acquired := [Acq.perIp, Acq.globalSem],
        finalGlobalAvail := globalAvail - 1 }
  | Option.none =>
    if globalAvail = 0 then
      { result := AcceptRes.errGlobalLimit, acquired := [], finalGlobalAvail := globalAvail }
    else if activeConns = USIZE_MAX then
      { result := AcceptRes.errOverflow, acquired := [Acq.globalSem],
        finalGlobalAvail := globalAvail }
    else
      { result := AcceptRes.okGuard, acquired := [Acq.globalSem],
        finalGlobalAvail := globalAvail - 1 }

/-- ConnectionManager::accept_connection from the legacy
src/connection_manager.rs: try_acquire the GLOBAL permit first, then,
when per-IP limits are configured, try_acquire the per-IP permit (bound
to a discarded binding, so it is released immediately even on success),
then the overflow guard; only the global permit is kept by the guard. -/
def legacy_accept_connection (per_ip_limits : Option Nat) (perIpAvail globalAvail : Nat)
    (activeConns : Nat) : AcceptOutcome :=
  if globalAvail = 0 then
    { result := AcceptRes.errGlobalLimit, acquired := [], finalGlobalAvail := globalAvail }
  else
    match per_ip_limits with
    | some _ =>
      if perIpAvail = 0 then
        { result := AcceptRes.errPerIpLimit, acquired := [Acq.globalSem],
          finalGlobalAvail := globalAvail }
      else if activeConns = USIZE_MAX then
        { result := AcceptRes.errOverflow, acquired := [Acq.globalSem, Acq.perIp],
          finalGlobalAvail := globalAvail }
      else
        { result := AcceptRes.okGuard, acquired := [Acq.globalSem, Acq.perIp],
          finalGlobalAvail := globalAvail - 1 }
    | Option.none =>
      if activeConns = USIZE_MAX then
        { result := AcceptRes.errOverflow, acquired := [Acq.globalSem],
          finalGlobalAvail := globalAvail }
      else
        { result := AcceptRes.okGuard, acquired := [Acq.globalSem],
          finalGlobalAvail := globalAvail - 1 }

set_option maxRecDepth 4000

theorem crcBitStep_xor (a b : Nat) : crcBitStep (a ^^^ b) = crcBitStep a ^^^ crcBitStep b := by
  have hdiv : (a ^^^ b) / 2 = a / 2 ^^^ b / 2 := Nat.xor_div_two
  unfold crcBitStep
  rcases Nat.mod_two_eq_zero_or_one a with ha | ha <;>
    rcases Nat.mod_two_eq_zero_or_one b with hb | hb
  · have hx : ¬((a ^^^ b) % 2 = 1) := by rw [Nat.xor_mod_two_eq_one]; simp [ha, hb]
    rw [if_neg hx, if_neg (by simp [ha]), if_neg (by simp [hb]), hdiv]
  · have hx : (a ^^^ b) % 2 = 1 := by rw [Nat.xor_mod_two_eq_one]; simp [ha, hb]
    rw [if_pos hx, if_neg (by simp [ha]), if_pos hb, hdiv, Nat.xor_assoc]
  · have hx : (a ^^^ b) % 2 = 1 := by rw [Nat.xor_mod_two_eq_one]; simp [ha, hb]
    rw [if_pos hx, if_pos ha, if_neg (by simp [hb]), hdiv, Nat.xor_assoc,
      Nat.xor_comm (b / 2) 0xA001, ← Nat.xor_assoc]
  · have hx : ¬((a ^^^ b) % 2 = 1) := by rw [Nat.xor_mod_two_eq_one]; simp [ha, hb]
    rw [if_neg hx, if_pos ha, if_pos hb, hdiv, Nat.xor_assoc,
      Nat.xor_comm (b / 2) 0xA001, ← Nat.xor_assoc 0xA001, ← Nat.xor_assoc,
      Nat.xor_self, Nat.xor_zero]

theorem crcBits_xor (n : Nat) : ∀ a b, crcBits (a ^^^ b) n = crcBits a n ^^^ crcBits b n := by
  induction n with
  | zero => intro a b; rfl
  | succ n ih =>
    intro a b
    show crcBits (crcBitStep (a ^^^ b)) n = crcBits (crcBitStep a) n ^^^ crcBits (crcBitStep b) n
    rw [crcBitStep_xor, ih]

theorem crcBitStep_even (m : Nat) : crcBitStep (m * 2) = m := by
  unfold crcBitStep
  simp [Nat.mul_mod_left]

theorem crcBits_mul_pow (n : Nat) : ∀ h, crcBits (h * 2 ^ n) n = h := by
  induction n with
  | zero => intro h; simp [crcBits]
  | succ n ih =>
    intro h
    show crcBits (crcBitStep (h * 2 ^ (n + 1))) n = h
    have hh : h * 2 ^ (n + 1) = h * 2 ^ n * 2 := by ring
    rw [hh, crcBitStep_even, ih]

theorem xor_div_pow (n : Nat) : ∀ a b, (a ^^^ b) / 2 ^ n = a / 2 ^ n ^^^ b / 2 ^ n := by
  induction n with
  | zero => intro a b; simp
  | succ n ih =>
    intro a b
    have h2 : ∀ x : Nat, x / 2 ^ (n + 1) = x / 2 ^ n / 2 := by
      intro x
      rw [Nat.div_div_eq_div_mul, pow_succ]
    rw [h2, h2, h2, ih, Nat.xor_div_two]

theorem low_high_decomp (x : Nat) : x % 256 ^^^ x / 256 * 256 = x := by
  apply Nat.eq_of_testBit_eq
  intro i
  have h256 : (256 : Nat) = 2 ^ 8 := by norm_num
  have hlow : x % 256 = x % 2 ^ 8 := by rw [h256]
  have hhigh : x / 256 * 256 = (x >>> 8) <<< 8 := by
    rw [Nat.shiftLeft_eq, Nat.shiftRight_eq_div_pow, h256]
  rw [Nat.testBit_xor, hlow, hhigh, Nat.testBit_mod_two_pow, Nat.testBit_shiftLeft,
    Nat.testBit_shiftRight]
  by_cases hi : i < 8
  · have h8 : ¬(8 ≤ i) := by omega
    simp [hi, h8]
  · have h8 : 8 ≤ i := by omega
    have he : 8 + (i - 8) = i := by omega
    simp [hi, h8, he]

theorem crc16_table_entries :
    ((List.range 256).all fun i => CRC16_TABLE.getD i 0 == crcBits i 8) = true := by
  decide

theorem crc16_table_spec (i : Nat) (hi : i < 256) : CRC16_TABLE.getD i 0 = crcBits i 8 := by
  have h := crc16_table_entries
  rw [List.all_eq_true] at h
  have hm : i ∈ List.range 256 := List.mem_range.mpr hi
  exact eq_of_beq (h i hm)

theorem crc_byte_step_eq (crc b : Nat) (hb : b < 256) :
    (crc >>> 8) ^^^ CRC16_TABLE.getD ((crc ^^^ b) &&& 0x00FF) 0 = crcBits (crc ^^^ b) 8 := by
  set x := crc ^^^ b with hx
  have hand : x &&& 0x00FF = x % 256 := by
    have := Nat.and_pow_two_sub_one_eq_mod x 8
    norm_num at this
    exact this
  have hdec : x % 256 ^^^ x / 256 * 256 = x := low_high_decomp x
  have hmain : crcBits x 8 = crcBits (x % 256) 8 ^^^ x / 256 := by
    calc crcBits x 8 = crcBits (x % 256 ^^^ x / 256 * 256) 8 := by rw [hdec]
    _ = crcBits (x % 256) 8 ^^^ crcBits (x / 256 * 256) 8 := crcBits_xor 8 _ _
    _ = crcBits (x % 256) 8 ^^^ x / 256 := by
        have h256 : (256 : Nat) = 2 ^ 8 := by norm_num
        rw [h256, crcBits_mul_pow]
  have hdiv : x / 256 = crc >>> 8 := by
    have h256 : (256 : Nat) = 2 ^ 8 := by norm_num
    rw [hx, h256, xor_div_pow, Nat.div_eq_of_lt (by omega : b < 2 ^ 8),
      Nat.xor_zero, Nat.shiftRight_eq_div_pow]
  rw [hand, crc16_table_spec (x % 256) (Nat.mod_lt x (by norm_num)), hmain, hdiv,
    Nat.xor_comm]

theorem crc_fold_eq : ∀ (data : List Nat), (∀ b ∈ data, b < 256) → ∀ init : Nat,
    data.foldl (fun crc byte => (crc >>> 8) ^^^ CRC16_TABLE.getD ((crc ^^^ byte) &&& 0x00FF) 0) init =
    data.foldl (fun crc byte => crcBits (crc ^^^ byte) 8) init := by
  intro data
  induction data with
  | nil => intro _ init; rfl
  | cons b rest ih =>
    intro h init
    have hb : b < 256 := h b (List.mem_cons_self b rest)
    have hrest : ∀ x ∈ rest, x < 256 := fun x hx => h x (List.mem_cons_of_mem b hx)
    show List.foldl _ ((init >>> 8) ^^^ CRC16_TABLE.getD ((init ^^^ b) &&& 0x00FF) 0) rest =
      List.foldl _ (crcBits (init ^^^ b) 8) rest
    rw [crc_byte_step_eq init b hb, ih hrest]

/-- Claim C3: the table-driven calc_crc16 agrees with the reference
bit-by-bit CRC-16/Modbus (reflected polynomial 0xA001, init 0xFFFF, no
final XOR) on every byte sequence; in particular it maps the empty input
to 0xFFFF, and it agrees with the reference on every single byte. -/
theorem calc_crc16_equals_bitwise_reference :
    (∀ data : List Nat, (∀ b ∈ data, b < 256) → calc_crc16 data = calc_crc16_ref data) ∧
    calc_crc16 [] = 0xFFFF ∧
    (∀ b : Nat, b < 256 → calc_crc16 [b] = calc_crc16_ref [b]) := by
  refine ⟨?_, rfl, ?_⟩
  · intro data h
    exact crc_fold_eq data h 0xFFFF
  · intro b hb
    exact crc_fold_eq [b] (by intro x hx; simp at hx; omega) 0xFFFF

/-- Witness for claim C3 at a concrete frame (the spec example request)
and a concrete single byte. -/
theorem calc_crc16_equals_bitwise_reference_witness :
    calc_crc16 [0x11, 0x03, 0x00, 0x6B, 0x00, 0x03] =
      calc_crc16_ref [0x11, 0x03, 0x00, 0x6B, 0x00, 0x03] ∧
    calc_crc16 [0xA5] = calc_crc16_ref [0xA5] :=
  ⟨calc_crc16_equals_bitwise_reference.1 [0x11, 0x03, 0x00, 0x6B, 0x00, 0x03] (by decide),
   calc_crc16_equals_bitwise_reference.2.2 0xA5 (by decide)⟩

theorem headD_take {k : Nat} (l : List Nat) (d : Nat) (hk : 0 < k) :
    (l.take k).headD d = l.headD d := by
  cases l with
  | nil => simp
  | cons a t =>
    cases k with
    | zero => omega
    | succ m => simp [List.take]

/-- Claim C1: whenever the RTU transaction fails at transport level, the
bridge returns Ok with exactly the 9-byte Modbus exception frame
transaction_id, 0x0000, 0x0003, unit_id, pdu[0] | 0x80, 0x0B, and not an
error. -/
theorem process_request_transport_failure_exception
    (transport : List Nat → Nat → Except Unit (List Nat))
    (t0 t1 unit_id : Nat) (pdu : List Nat) (q : Nat)
    (_hp : pdu ≠ [])
    (hq : get_quantity (pdu.headD 0) (build_rtu_request unit_id pdu) = Except.ok q)
    (herr : transport (build_rtu_request unit_id pdu)
        (guess_response_size (pdu.headD 0) q) = Except.error ()) :
    process_request transport t0 t1 unit_id pdu =
      Except.ok [t0, t1, 0x00, 0x00, 0x00, 0x03, unit_id, pdu.headD 0 ||| 0x80, 0x0B] := by
  simp only [process_request, hq, herr]

/-- Witness for claim C1: a read-holding-registers request against a
transport that always fails yields the 0x0B gateway exception frame. -/
theorem process_request_transport_failure_exception_witness :
    process_request (fun _ _ => Except.error ()) 0x00 0x01 0x11 [0x03, 0x00, 0x6B, 0x00, 0x03] =
      Except.ok [0x00, 0x01, 0x00, 0x00, 0x00, 0x03, 0x11, 0x83, 0x0B] := by
  have h := process_request_transport_failure_exception (fun _ _ => Except.error ())
    0x00 0x01 0x11 [0x03, 0x00, 0x6B, 0x00, 0x03] 0x03 (by decide) rfl rfl
  simpa using h

/-- Claim C2: on a successful RTU transaction returning n bytes, the
bridge returns FrameTooShort when n < 5; a Crc error carrying the
calculated and received values when the CRC16 over the first n-2 bytes
differs from the little-endian value of the two trailing bytes; an
InvalidUnitId error when the leading byte differs from the expected unit
id; and otherwise the TCP frame transaction_id, 0x0000, be16(n-2),
followed by the first n-2 received bytes. -/
theorem process_request_success_path
    (transport : List Nat → Nat → Except Unit (List Nat))
    (t0 t1 unit_id q : Nat) (pdu buf : List Nat)
    (hq : get_quantity (pdu.headD 0) (build_rtu_request unit_id pdu) = Except.ok q)
    (hok : transport (build_rtu_request unit_id pdu)
        (guess_response_size (pdu.headD 0) q) = Except.ok buf) :
    (buf.length < 5 →
      process_request transport t0 t1 unit_id pdu = Except.error (RelayErr.frameTooShort buf)) ∧
    (5 ≤ buf.length →
      calc_crc16 (buf.take (buf.length - 2)) ≠
        buf.getD (buf.length - 2) 0 + 256 * buf.getD (buf.length - 1) 0 →
      process_request transport t0 t1 unit_id pdu =
        Except.error (RelayErr.frameCrc (calc_crc16 (buf.take (buf.length - 2)))
          (buf.getD (buf.length - 2) 0 + 256 * buf.getD (buf.length - 1) 0)
          (buf.take (buf.length - 2)))) ∧
    (5 ≤ buf.length →
      calc_crc16 (buf.take (buf.length - 2)) =
        buf.getD (buf.length - 2) 0 + 256 * buf.getD (buf.length - 1) 0 →
      buf.headD 0 ≠ unit_id →
      process_request transport t0 t1 unit_id pdu =
        Except.error (RelayErr.frameInvalidUnitId (buf.take (buf.length - 2)))) ∧
    (5 ≤ buf.length →
      calc_crc16 (buf.take (buf.length - 2)) =
        buf.getD (buf.length - 2) 0 + 256 * buf.getD (buf.length - 1) 0 →
      buf.headD 0 = unit_id →
      process_request transport t0 t1 unit_id pdu =
        Except.ok ((t0 :: t1 :: 0x00 :: 0x00 :: u16_be_bytes (buf.length - 2)) ++
          buf.take (buf.length - 2))) := by
  refine ⟨?_, ?_, ?_, ?_⟩
  · intro h5
    simp only [process_request, hq, hok]
    rw [if_pos h5]
  · intro h5 hcrc
    simp only [process_request, hq, hok]
    rw [if_neg (by omega), if_pos hcrc]
  · intro h5 hcrc hunit
    have hh : (buf.take (buf.length - 2)).headD 0 ≠ unit_id := by
      rw [headD_take buf 0 (by omega)]; exact hunit
    simp only [process_request, hq, hok]
    rw [if_neg (by omega), if_neg (by simp [hcrc]), if_pos hh]
  · intro h5 hcrc hunit
    have hh : ¬((buf.take (buf.length - 2)).headD 0 ≠ unit_id) :=
      not_not_intro ((headD_take buf 0 (by omega)).trans hunit)
    simp only [process_request, hq, hok]
    rw [if_neg (by omega), if_neg (by simp [hcrc]), if_neg hh]
    have hlen : (buf.take (buf.length - 2)).length = buf.length - 2 := by
      simp [List.length_take]
    rw [hlen]

/-- Witness for claim C2: the happy-path end-to-end example; the device
reply 11 03 06 02 2B 00 00 00 64 C8 BA becomes the TCP frame
00 01 00 00 00 09 11 03 06 02 2B 00 00 00 64. -/
theorem process_request_success_path_witness :
    process_request
      (fun _ _ => Except.ok [0x11, 0x03, 0x06, 0x02, 0x2B, 0x00, 0x00, 0x00, 0x64, 0xC8, 0xBA])
      0x00 0x01 0x11 [0x03, 0x00, 0x6B, 0x00, 0x03] =
      Except.ok [0x00, 0x01, 0x00, 0x00, 0x00, 0x09,
        0x11, 0x03, 0x06, 0x02, 0x2B, 0x00, 0x00, 0x00, 0x64] := by
  have h := (process_request_success_path
    (fun _ _ => Except.ok [0x11, 0x03, 0x06, 0x02, 0x2B, 0x00, 0x00, 0x00, 0x64, 0xC8, 0xBA])
    0x00 0x01 0x11 0x03 [0x03, 0x00, 0x6B, 0x00, 0x03]
    [0x11, 0x03, 0x06, 0x02, 0x2B, 0x00, 0x00, 0x00, 0x64, 0xC8, 0xBA]
    rfl rfl).2.2.2 (by decide) (by rfl) (by rfl)
  exact h.trans rfl

/-- Claim C4: read_frame rejects the bytes of one TCP read exactly when
fewer than 7 bytes arrived, or the protocol id is nonzero, or the length
field exceeds 249, or the length field plus 6 differs from the byte
count; a length field of 250 (with a readable header and zero protocol
id) is rejected as too long, and an accepted frame satisfies
n = 6 + length. -/
theorem read_frame_mbap_validation (buf : List Nat) :
    ((read_frame buf).isOk = false ↔
      (buf.length < 7 ∨ buf.getD 2 0 * 256 + buf.getD 3 0 ≠ 0 ∨
        249 < buf.getD 4 0 * 256 + buf.getD 5 0 ∨
        buf.getD 4 0 * 256 + buf.getD 5 0 + 6 ≠ buf.length)) ∧
    ((read_frame buf).isOk = true → buf.length = 6 + (buf.getD 4 0 * 256 + buf.getD 5 0)) ∧
    (7 ≤ buf.length → buf.getD 2 0 * 256 + buf.getD 3 0 = 0 →
      buf.getD 4 0 * 256 + buf.getD 5 0 = 250 →
      read_frame buf = Except.error RelayErr.frameTooLong) := by
  simp only [read_frame]
  by_cases h0 : buf.length = 0
  · rw [if_pos h0]
    exact ⟨⟨fun _ => Or.inl (by omega), fun _ => rfl⟩,
      fun h => Bool.noConfusion h, fun h7 _ _ => absurd h7 (by omega)⟩
  · rw [if_neg h0]
    by_cases h7 : buf.length < 7
    · rw [if_pos h7]
      exact ⟨⟨fun _ => Or.inl h7, fun _ => rfl⟩,
        fun h => Bool.noConfusion h, fun hge _ _ => absurd h7 (by omega)⟩
    · rw [if_neg h7]
      by_cases hp : buf.getD 2 0 * 256 + buf.getD 3 0 ≠ 0
      · rw [if_pos hp]
        exact ⟨⟨fun _ => Or.inr (Or.inl hp), fun _ => rfl⟩,
          fun h => Bool.noConfusion h, fun _ hpid _ => absurd hpid hp⟩
      · rw [if_neg hp]
        by_cases hl : 249 < buf.getD 4 0 * 256 + buf.getD 5 0
        · rw [if_pos hl]
          exact ⟨⟨fun _ => Or.inr (Or.inr (Or.inl hl)), fun _ => rfl⟩,
            fun h => Bool.noConfusion h, fun _ _ _ => rfl⟩
        · rw [if_neg hl]
          by_cases hn : buf.getD 4 0 * 256 + buf.getD 5 0 + 6 ≠ buf.length
          · rw [if_pos hn]
            exact ⟨⟨fun _ => Or.inr (Or.inr (Or.inr hn)), fun _ => rfl⟩,
              fun h => Bool.noConfusion h, fun _ _ h250 => absurd hl (by omega)⟩
          · rw [if_neg hn]
            refine ⟨⟨fun h => Bool.noConfusion h, fun hdisj => ?_⟩,
              fun _ => by omega, fun _ _ h250 => absurd hl (by omega)⟩
            rcases hdisj with h | h | h | h
            · exact absurd h h7
            · exact absurd h hp
            · exact absurd h hl
            · exact absurd h hn

/-- Witness for claim C4: the example request frame of length 12 with
length field 6 is accepted and satisfies the length equation. -/
theorem read_frame_mbap_validation_witness :
    ([0x00, 0x01, 0x00, 0x00, 0x00, 0x06, 0x11, 0x03, 0x00, 0x6B, 0x00, 0x03] : List Nat).length =
      6 + (([0x00, 0x01, 0x00, 0x00, 0x00, 0x06, 0x11, 0x03, 0x00, 0x6B, 0x00, 0x03] : List Nat).getD 4 0 * 256 +
        ([0x00, 0x01, 0x00, 0x00, 0x00, 0x06, 0x11, 0x03, 0x00, 0x6B, 0x00, 0x03] : List Nat).getD 5 0) :=
  (read_frame_mbap_validation
    [0x00, 0x01, 0x00, 0x00, 0x00, 0x06, 0x11, 0x03, 0x00, 0x6B, 0x00, 0x03]).2.1 (by rfl)

/-- Counterexample to claim C5: with 8 bytes expected, after one byte is
read an inter-byte silence of 100 ms ends the read, but the transaction
does not succeed with the bytes read so far; the post-loop minimum-size
check turns fewer than 3 bytes into an Io error. -/
theorem rtu_read_loop_silence_short_counterexample :
    rtu_read_loop 8 [ReadEv.readOk 1 0, ReadEv.readTimedOut 100] 0 0 = ReadOutcome.ioError ∧
    ReadOutcome.ioError ≠ ReadOutcome.success 1 := by
  exact ⟨rfl, by decide⟩

/-- Claim C5 as amended: from the start of the read phase, three
consecutive read timeouts with zero bytes received fail the transaction
with NoResponse and attempts = 3; once bytes are buffered, an inter-byte
silence of at least 100 ms (seen as a zero-byte read or a read timeout)
ends the read, and the transaction then succeeds with the bytes read so
far when at least 3 bytes are buffered, but fails with an Io error when
only 1 or 2 bytes are buffered; and reading stops as soon as
expected_size bytes have been received, regardless of any further
observations. -/
theorem rtu_read_loop_behavior :
    (∀ (expected g1 g2 g3 : Nat) (rest : List ReadEv), 0 < expected →
      rtu_read_loop expected
        (ReadEv.readTimedOut g1 :: ReadEv.readTimedOut g2 :: ReadEv.readTimedOut g3 :: rest)
        0 0 = ReadOutcome.noResponse 3) ∧
    (∀ (expected total timeouts gap : Nat) (ev : ReadEv) (rest : List ReadEv),
      0 < total → total < expected → 100 ≤ gap →
      (ev = ReadEv.readOk 0 gap ∨ ev = ReadEv.readTimedOut gap) →
      rtu_read_loop expected (ev :: rest) total timeouts =
        (if total < 3 then ReadOutcome.ioError else ReadOutcome.success total)) ∧
    (∀ (expected total timeouts : Nat) (evs : List ReadEv), expected ≤ total →
      rtu_read_loop expected evs total timeouts = read_finish total timeouts) := by
  refine ⟨?_, ?_, ?_⟩
  · intro expected g1 g2 g3 rest hexp
    simp only [rtu_read_loop, if_neg (by omega : ¬expected ≤ 0)]
    norm_num
  · intro expected total timeouts gap ev rest htot hlt hgap hev
    have hcond : 0 < total ∧ 100 ≤ gap := ⟨htot, hgap⟩
    rcases hev with hev | hev <;> subst hev
    · simp only [rtu_read_loop, if_neg (by omega : ¬expected ≤ total), if_pos hcond,
        read_finish, if_neg (by omega : ¬total = 0)]
    · simp only [rtu_read_loop, if_neg (by omega : ¬expected ≤ total), if_pos hcond,
        read_finish, if_neg (by omega : ¬total = 0)]
  · intro expected total timeouts evs hle
    cases evs with
    | nil => simp only [rtu_read_loop, if_pos hle]
    | cons ev rest => simp only [rtu_read_loop, if_pos hle]

/-- Witness for claim C5 as amended: three timeouts with nothing
received give NoResponse with 3 attempts; a 100 ms silence after 4 bytes
of an expected 8 succeeds with those 4 bytes; a buffered total at the
expected size finishes immediately. -/
theorem rtu_read_loop_behavior_witness :
    rtu_read_loop 8 [ReadEv.readTimedOut 0, ReadEv.readTimedOut 0, ReadEv.readTimedOut 0] 0 0 =
      ReadOutcome.noResponse 3 ∧
    rtu_read_loop 8 [ReadEv.readTimedOut 100] 4 0 =
      (if (4 : Nat) < 3 then ReadOutcome.ioError else ReadOutcome.success 4) ∧
    rtu_read_loop 8 [ReadEv.readErr] 8 0 = read_finish 8 0 :=
  ⟨rtu_read_loop_behavior.1 8 0 0 0 [] (by decide),
   rtu_read_loop_behavior.2.1 8 4 0 100 (ReadEv.readTimedOut 100) [] (by decide) (by decide)
     (by decide) (Or.inr rfl),
   rtu_read_loop_behavior.2.2 8 8 0 [ReadEv.readErr] (by decide)⟩

/-- Counterexample to claim C6: for the Read Coils request
11 01 00 00 00 10 (quantity field 16), the bridge's get_quantity
extracts 16, but the transport's recomputation inside transaction
returns 1, not the big-endian u16 at bytes [4..6]. -/
theorem transport_quantity_counterexample :
    get_quantity 0x01 [0x11, 0x01, 0x00, 0x00, 0x00, 0x10, 0x3B, 0x0E] = Except.ok 16 ∧
    transport_quantity [0x11, 0x01, 0x00, 0x00, 0x00, 0x10, 0x3B, 0x0E] = Except.ok 1 ∧
    (1 : Nat) ≠ 16 := by
  exact ⟨rfl, rfl, by decide⟩

/-- Claim C6 as amended: the bridge's get_quantity uses the big-endian
u16 at request bytes [4..6] for function codes 0x01..0x04, 0x0F and
0x10, and the constant 1 for every other function code; the transport's
own recomputation inside transaction uses bytes [4..6] only for function
codes 0x03 and 0x04, and the constant 1 for every other function code
(including 0x01, 0x02, 0x0F and 0x10). -/
theorem quantity_extraction_sites :
    (∀ (fc : Nat) (request : List Nat),
      ((0x01 ≤ fc ∧ fc ≤ 0x04) ∨ fc = 0x0F ∨ fc = 0x10) →
      get_quantity fc request = get_u16_from_request request 4) ∧
    (∀ (fc : Nat) (request : List Nat),
      ¬((0x01 ≤ fc ∧ fc ≤ 0x04) ∨ fc = 0x0F ∨ fc = 0x10) →
      get_quantity fc request = Except.ok 1) ∧
    (∀ (request : List Nat) (fc b0 b1 : Nat),
      request.get? 1 = some fc → (fc = 0x03 ∨ fc = 0x04) →
      request.get? 4 = some b0 → request.get? 5 = some b1 →
      transport_quantity request = Except.ok (b0 * 256 + b1)) ∧
    (∀ (request : List Nat) (fc : Nat),
      request.get? 1 = some fc → ¬(fc = 0x03 ∨ fc = 0x04) →
      transport_quantity request = Except.ok 1) := by
  refine ⟨?_, ?_, ?_, ?_⟩
  · intro fc request h
    simp only [get_quantity, if_pos h]
  · intro fc request h
    simp only [get_quantity, if_neg h]
    by_cases h56 : fc = 0x05 ∨ fc = 0x06
    · rw [if_pos h56]
    · rw [if_neg h56]
  · intro request fc b0 b1 h1 hfc h4 h5
    simp only [transport_quantity, h1, h4, h5, if_pos hfc]
  · intro request fc h1 hfc
    simp only [transport_quantity, h1, if_neg hfc]

/-- Witness for claim C6 as amended, at concrete requests: a function
code 0x10 request routed through bytes [4..6] by get_quantity; a
function code 0x07 request given quantity 1 by get_quantity; a function
code 0x03 request routed through bytes [4..6] by the transport; a
function code 0x01 request given quantity 1 by the transport. -/
theorem quantity_extraction_sites_witness :
    get_quantity 0x10 [0x11, 0x10, 0x00, 0x01, 0x00, 0x02, 0x04] =
      get_u16_from_request [0x11, 0x10, 0x00, 0x01, 0x00, 0x02, 0x04] 4 ∧
    get_quantity 0x07 [0x11, 0x07] = Except.ok 1 ∧
    transport_quantity [0x11, 0x03, 0x00, 0x6B, 0x00, 0x03] = Except.ok (0 * 256 + 3) ∧
    transport_quantity [0x11, 0x01, 0x00, 0x00, 0x00, 0x08] = Except.ok 1 :=
  ⟨quantity_extraction_sites.1 0x10 [0x11, 0x10, 0x00, 0x01, 0x00, 0x02, 0x04] (by decide),
   quantity_extraction_sites.2.1 0x07 [0x11, 0x07] (by decide),
   quantity_extraction_sites.2.2.1 [0x11, 0x03, 0x00, 0x6B, 0x00, 0x03] 0x03 0 3 rfl
     (by decide) rfl rfl,
   quantity_extraction_sites.2.2.2 [0x11, 0x01, 0x00, 0x00, 0x00, 0x08] 0x01 rfl (by decide)⟩

/-- Counterexample to claim C7: with the rts feature compiled in,
rts_type = none and rts_delay_us = 1, the transaction still issues RTS
ioctls (set_rts with level false) and still sleeps the RTS delay. -/
theorem transaction_actions_rts_none_counterexample :
    RtuAction.setRts false ∈ transaction_actions true RtsType.none 1 false ∧
    RtuAction.sleepUs 1 ∈ transaction_actions true RtsType.none 1 false := by
  exact ⟨by decide, by decide⟩

/-- Claim C7 as amended: no RTS control (no set_rts ioctl, no RTS delay
sleep) happens only when the rts cargo feature is compiled out; with the
feature compiled in, rts_type = none maps both direction levels to
false, so the transaction still issues set_rts false at both direction
change points, and still sleeps rts_delay_us before the write and after
the flush whenever rts_delay_us is positive. -/
theorem transaction_actions_rts_control :
    (∀ (t : RtsType) (d : Nat) (f : Bool) (l : Bool),
      RtuAction.setRts l ∉ transaction_actions false t d f) ∧
    (∀ (t : RtsType) (d : Nat) (f : Bool) (u : Nat),
      RtuAction.sleepUs u ∉ transaction_actions false t d f) ∧
    (∀ b : Bool, RtsType.none.to_signal_level b = false) ∧
    (∀ (d : Nat) (f : Bool),
      transaction_actions true RtsType.none d f =
        RtuAction.setRts false :: (if 0 < d then [RtuAction.sleepUs d] else []) ++
        ([RtuAction.writeRequest, RtuAction.flushWrite] ++
          ([RtuAction.setRts false] ++
            ((if f then [RtuAction.drainBuffers] else []) ++
              ((if 0 < d then [RtuAction.sleepUs d] else []) ++ [RtuAction.readPhase]))))) := by
  refine ⟨?_, ?_, ?_, ?_⟩
  · intro t d f l
    simp [transaction_actions]
  · intro t d f u
    simp [transaction_actions]
  · intro b
    rfl
  · intro d f
    by_cases hd : 0 < d <;> by_cases hf : f <;>
      simp [transaction_actions, RtsType.to_signal_level, hd, hf]

/-- Witness for claim C7 as amended, at concrete parameters. -/
theorem transaction_actions_rts_control_witness :
    RtuAction.setRts false ∉ transaction_actions false RtsType.none 1 false ∧
    RtuAction.sleepUs 1 ∉ transaction_actions false RtsType.none 1 false ∧
    RtsType.none.to_signal_level true = false ∧
    transaction_actions true RtsType.none 1 true =
      RtuAction.setRts false :: (if 0 < (1 : Nat) then [RtuAction.sleepUs 1] else []) ++
      ([RtuAction.writeRequest, RtuAction.flushWrite] ++
        ([RtuAction.setRts false] ++
          ((if true then [RtuAction.drainBuffers] else []) ++
            ((if 0 < (1 : Nat) then [RtuAction.sleepUs 1] else []) ++ [RtuAction.readPhase])))) :=
  ⟨transaction_actions_rts_control.1 RtsType.none 1 false false,
   transaction_actions_rts_control.2.1 RtsType.none 1 false 1,
   transaction_actions_rts_control.2.2.1 true,
   transaction_actions_rts_control.2.2.2 1 true⟩

/-- Counterexample to claim C8: one record_client_error call on a peer
with no entry creates an entry with error_count = 1 and
total_requests = 0, violating total_errors <= total_requests. -/
theorem record_client_error_invariant_counterexample :
    record_client_error 0 (fun _ => Option.none) 0 0 =
      some { active_connections := 0, last_active := 0, total_requests := 0,
             error_count := 1, last_error := some 0 } ∧
    ¬((1 : Nat) ≤ 0) :=
  ⟨rfl, by decide⟩

/-- Claim C8 as amended: a newly created stats entry satisfies
total_errors <= total_requests (with the request counter within u64
range), and every stats-actor event preserves that invariant for every
entry of the map (the actor uses saturating u64 arithmetic); the
connection manager's record_request preserves it only while the
targeted entry's total_requests is below u64::MAX, since its plain u64
increment wraps there (last conjunct: a failed request on an entry with
total_requests = u64::MAX wraps that counter to 0 and breaks the
invariant); the connection manager's record_client_error increments the
error counter without a matching request and violates the invariant
outright. -/
theorem stats_errors_le_requests_invariant :
    (∀ now : Nat, (ClientStats.default now).total_errors ≤ (ClientStats.default now).total_requests ∧
      (ClientStats.default now).total_requests ≤ U64_MAX) ∧
    (∀ (ema : Nat → Nat → Nat) (now : Nat) (s : StatsState) (ev : StatEvent),
      (∀ (a : Addr) (e : ClientStats), s.stats a = some e →
        e.total_errors ≤ e.total_requests ∧ e.total_requests ≤ U64_MAX) →
      ∀ (a : Addr) (e : ClientStats), (handle_event ema now s ev).stats a = some e →
        e.total_errors ≤ e.total_requests ∧ e.total_requests ≤ U64_MAX) ∧
    (∀ (now : Nat) (stats : Addr → Option ManagerClientStats) (addr : Addr) (success : Bool),
      (∀ (a : Addr) (e : ManagerClientStats), stats a = some e →
        e.error_count ≤ e.total_requests) →
      (∀ e0 : ManagerClientStats, stats addr = some e0 → e0.total_requests < U64_MAX) →
      ∀ (a : Addr) (e : ManagerClientStats), record_request now stats addr success a = some e →
        e.error_count ≤ e.total_requests) ∧
    (record_request 0 (fun _ => some (ManagerClientStats.mk 0 0 U64_MAX 5 Option.none)) 0 false 0 =
      some (ManagerClientStats.mk 0 0 0 6 (some 0)) ∧
      ¬((ManagerClientStats.mk 0 0 0 6 (some 0)).error_count ≤
        (ManagerClientStats.mk 0 0 0 6 (some 0)).total_requests)) := by
  refine ⟨?_, ?_, ?_, ?_⟩
  · intro now
    exact ⟨Nat.le_refl 0, Nat.zero_le _⟩
  · intro ema now s ev hinv a e
    cases ev with
    | clientConnected addr =>
      simp only [handle_event]
      by_cases ha : a = addr
      · rw [if_pos ha]
        intro he
        cases he
        cases hs : s.stats addr with
        | none =>
          simp only [hs, Option.getD]
          exact ⟨Nat.le_refl 0, Nat.zero_le _⟩
        | some e0 =>
          have := hinv addr e0 hs
          simp only [hs, Option.getD]
          exact this
      · rw [if_neg ha]
        exact hinv a e
    | clientDisconnected addr =>
      simp only [handle_event]
      cases hs : s.stats addr with
      | none => exact hinv a e
      | some e0 =>
        simp only []
        by_cases ha : a = addr
        · rw [if_pos ha]
          intro he
          cases he
          exact hinv addr e0 hs
        · rw [if_neg ha]
          exact hinv a e
    | requestProcessed addr success duration_ms =>
      simp only [handle_event]
      by_cases ha : a = addr
      · rw [if_pos ha]
        intro he
        cases he
        have hbase : ((s.stats addr).getD (ClientStats.default now)).total_errors ≤
            ((s.stats addr).getD (ClientStats.default now)).total_requests ∧
            ((s.stats addr).getD (ClientStats.default now)).total_requests ≤ U64_MAX := by
          cases hs : s.stats addr with
          | none => exact ⟨Nat.le_refl 0, Nat.zero_le _⟩
          | some e0 => exact hinv addr e0 hs
        rcases hbase with ⟨hle, hub⟩
        simp only [U64_MAX] at hub
        cases success <;>
          simp [apply_ite ClientStats.total_errors, apply_ite ClientStats.total_requests,
            satAdd64, U64_MAX] <;>
          omega
      · rw [if_neg ha]
        exact hinv a e
    | queryStats addr =>
      simp only [handle_event]
      exact hinv a e
    | queryConnectionStats =>
      simp only [handle_event]
      exact hinv a e
  · intro now stats addr success hinv hbound a e
    simp only [record_request]
    cases hs : stats addr with
    | none => exact hinv a e
    | some e0 =>
      simp only []
      by_cases ha : a = addr
      · rw [if_pos ha]
        intro he
        have h0 := hinv addr e0 hs
        have h1 := hbound e0 hs
        simp only [U64_MAX] at h1
        cases success <;> simp [wrapAdd64] at he <;> subst he <;> simp [wrapAdd64] <;> omega
      · rw [if_neg ha]
        exact hinv a e
  · exact ⟨rfl, by decide⟩

/-- Witness for claim C8 as amended: a fresh entry satisfies the
invariant; a failed RequestProcessed event on an empty map yields an
entry with one request and one error; a failed record_request on an
entry with zero counters (so below the u64::MAX wrap point) yields one
request and one error. -/
theorem stats_errors_le_requests_invariant_witness :
    ((ClientStats.default 0).total_errors ≤ (ClientStats.default 0).total_requests ∧
      (ClientStats.default 0).total_requests ≤ U64_MAX) ∧
    ((ClientStats.mk 0 1 1 5 (some 5) 7).total_errors ≤
        (ClientStats.mk 0 1 1 5 (some 5) 7).total_requests ∧
      (ClientStats.mk 0 1 1 5 (some 5) 7).total_requests ≤ U64_MAX) ∧
    (ManagerClientStats.mk 0 3 1 1 (some 3)).error_count ≤
      (ManagerClientStats.mk 0 3 1 1 (some 3)).total_requests :=
  ⟨stats_errors_le_requests_invariant.1 0,
   stats_errors_le_requests_invariant.2.1 (fun _ x => x) 5
     { stats := fun _ => Option.none, total_connections := 0 }
     (StatEvent.requestProcessed 0 false 7)
     (fun _ _ h => Option.noConfusion h) 0 (ClientStats.mk 0 1 1 5 (some 5) 7) rfl,
   stats_errors_le_requests_invariant.2.2.1 3 (fun _ => some (ManagerClientStats.fresh 0)) 0 false
     (fun _ e h => by cases h; exact Nat.le_refl 0)
     (fun e0 h => by cases h; decide)
     0 (ManagerClientStats.mk 0 3 1 1 (some 3)) rfl⟩

/-- Counterexample to claim C9: in the legacy
ConnectionManager::accept_connection of src/connection_manager.rs, with
a per-IP limit configured, the per-IP semaphore exhausted and 5 free
global permits, the call returns the per-IP LimitExceeded error after
having acquired the global permit first (it is released again on
return), so the per-peer permit is not acquired before the global
one and a global permit is consumed while the call is rejected. -/
theorem legacy_accept_global_first_counterexample :
    (legacy_accept_connection (some 1) 0 5 0).result = AcceptRes.errPerIpLimit ∧
    (legacy_accept_connection (some 1) 0 5 0).acquired = [Acq.globalSem] := by
  exact ⟨rfl, rfl⟩

/-- Claim C9 as amended: in connection/manager.rs
Manager::accept_connection, with per-IP limits configured, the permit
acquisition order is always per-peer first (the global permit is never
acquired before the per-IP one), and a per-IP rejection returns
LimitExceeded having acquired nothing and leaving the global
free-permit count unchanged; in the legacy
connection_manager.rs ConnectionManager::accept_connection, the global
permit is acquired first, so a per-IP rejection happens with the global
permit already taken (and released only on return). -/
theorem accept_connection_permit_order :
    (∀ (limit perIpAvail globalAvail activeConns : Nat),
      (accept_connection (some limit) perIpAvail globalAvail activeConns).acquired = [] ∨
      (accept_connection (some limit) perIpAvail globalAvail activeConns).acquired = [Acq.perIp] ∨
      (accept_connection (some limit) perIpAvail globalAvail activeConns).acquired =
        [Acq.perIp, Acq.globalSem]) ∧
    (∀ (limit globalAvail activeConns : Nat),
      (accept_connection (some limit) 0 globalAvail activeConns).result = AcceptRes.errPerIpLimit ∧
      (accept_connection (some limit) 0 globalAvail activeConns).acquired = [] ∧
      (accept_connection (some limit) 0 globalAvail activeConns).finalGlobalAvail = globalAvail) ∧
    (∀ (limit globalAvail activeConns : Nat), 0 < globalAvail →
      (legacy_accept_connection (some limit) 0 globalAvail activeConns).result =
        AcceptRes.errPerIpLimit ∧
      (legacy_accept_connection (some limit) 0 globalAvail activeConns).acquired =
        [Acq.globalSem]) := by
  refine ⟨?_, ?_, ?_⟩
  · intro limit perIpAvail globalAvail activeConns
    simp only [accept_connection]
    by_cases hp : perIpAvail = 0
    · rw [if_pos hp]
      exact Or.inl rfl
    · rw [if_neg hp]
      by_cases hg : globalAvail = 0
      · rw [if_pos hg]
        exact Or.inr (Or.inl rfl)
      · rw [if_neg hg]
        by_cases ho : activeConns = USIZE_MAX
        · rw [if_pos ho]
          exact Or.inr (Or.inr rfl)
        · rw [if_neg ho]
          exact Or.inr (Or.inr rfl)
  · intro limit globalAvail activeConns
    simp only [accept_connection, if_pos rfl]
    exact ⟨rfl, rfl, rfl⟩
  · intro limit globalAvail activeConns hg
    simp only [legacy_accept_connection, if_neg (by omega : ¬globalAvail = 0), if_pos rfl]
    exact ⟨rfl, rfl⟩

/-- Witness for claim C9 as amended, at concrete permit counts. -/
theorem accept_connection_permit_order_witness :
    ((accept_connection (some 3) 2 4 0).acquired = [] ∨
      (accept_connection (some 3) 2 4 0).acquired = [Acq.perIp] ∨
      (accept_connection (some 3) 2 4 0).acquired = [Acq.perIp, Acq.globalSem]) ∧
    ((accept_connection (some 1) 0 4 0).result = AcceptRes.errPerIpLimit ∧
      (accept_connection (some 1) 0 4 0).acquired = [] ∧
      (accept_connection (some 1) 0 4 0).finalGlobalAvail = 4) ∧
    ((legacy_accept_connection (some 1) 0 4 0).result = AcceptRes.errPerIpLimit ∧
      (legacy_accept_connection (some 1) 0 4 0).acquired = [Acq.globalSem]) :=
  ⟨accept_connection_permit_order.1 3 2 4 0,
   accept_connection_permit_order.2.1 1 4 0,
   accept_connection_permit_order.2.2 1 4 0 (by decide)⟩
